import Mathlib

/-!
Shallow embedding of the provider abstraction layer of `unified-llm-engine`
(`src/llm_engine/providers/`): the request/response data model, request
validation, the HTTP-status-to-exception classifier, the per-provider pricing
tables and cost computation, the Gemini retry loop, and the Gemini class-level
admission gate.  Machine floats of the source are modelled as rationals;
Python `round(x, 6)` is modelled as round-half-to-even at 6 fractional digits.
-/

/-! ## Python string helpers -/

/-- Python `str.lower()`. -/
def pyLower (s : String) : String := String.mk (s.toList.map Char.toLower)

/-- Whether `needle` occurs as a contiguous sublist at the head of `hay`. -/
def listHeadMatch : List Char → List Char → Bool
  | [], _ => true
  | _ :: _, [] => false
  | a :: as, b :: bs => a = b && listHeadMatch as bs

/-- Whether `needle` occurs as a contiguous sublist anywhere in `hay`. -/
def listOccurs (needle : List Char) : List Char → Bool
  | [] => listHeadMatch needle []
  | c :: t => listHeadMatch needle (c :: t) || listOccurs needle t

/-- Python `needle in hay` on strings. -/
def pyIn (needle hay : String) : Bool := listOccurs needle.toList hay.toList

/-- Python `s[:n]`. -/
def pySlice (s : String) (n : Nat) : String := String.mk (s.toList.take n)

/-! ## Rounding (Python `round(x, 6)`)

Python `round` rounds to the nearest representable value, ties to even.
On this rational idealisation of the source's floats that is round-half-even
at the 6th fractional digit. -/

/-- Round a rational to the nearest integer, ties to the even integer
(the rounding mode of Python's builtin `round`). -/
def roundHalfEven (q : ℚ) : ℤ :=
  if q - (⌊q⌋ : ℚ) < 1/2 then ⌊q⌋
  else if (1 : ℚ)/2 < q - (⌊q⌋ : ℚ) then ⌊q⌋ + 1
  else if ⌊q⌋ % 2 = 0 then ⌊q⌋ else ⌊q⌋ + 1

/-- Python `round(q, 6)`. -/
def pyRound6 (q : ℚ) : ℚ := (roundHalfEven (q * 1000000) : ℚ) / 1000000

/-! ## Request / response data model (`base_provider.py`) -/

/-- `LLMRequest` dataclass (`base_provider.py` lines 30-44).  `metadata` is a
`Dict[str, Any]`; the only key the providers read is `thinking_budget`, so the
map is embedded at integer values. -/
structure LLMRequest where
  prompt : String
  system_message : Option String := none
  temperature : ℚ := 0.7
  max_tokens : Int := 2048
  top_p : ℚ := 0.9
  stream : Bool := false
  metadata : List (String × Int) := []
  model_override : Option String := none
  timeout : Option Int := none
deriving DecidableEq

/-- The field names `LLMRequest` declares, in source order.  A Python
attribute access outside this list raises `AttributeError`. -/
def LLMRequest.fieldNames : List String :=
  ["prompt", "system_message", "temperature", "max_tokens", "top_p",
   "stream", "metadata", "model_override", "timeout"]

/-- `request.metadata.get('thinking_budget')` (`gemini_provider.py` line 137). -/
def LLMRequest.thinkingBudget (r : LLMRequest) : Option Int :=
  (r.metadata.find? (fun p => p.1 = "thinking_budget")).map (fun p => p.2)

/-- Values stored in a response's `metadata` dictionary. -/
inductive MetaVal
  | natV (n : Nat)
  | intV (i : Int)
  | strV (s : String)
  | boolV (b : Bool)
  | noneV
deriving DecidableEq

/-- `data.get(key)` for an optional string, as stored into response metadata. -/
def optStrMeta : Option String → MetaVal
  | some s => .strV s
  | none => .noneV

/-- `LLMResponse` dataclass (`base_provider.py` lines 47-61).  Note it has a
single `tokens_used` field and no `input_tokens` / `output_tokens` fields. -/
structure LLMResponse where
  content : String
  model : String
  provider : String
  tokens_used : Nat
  cost : ℚ
  latency_ms : ℚ
  metadata : List (String × MetaVal) := []
  finish_reason : Option String := none
  error : Option String := none
deriving DecidableEq

/-- The field names `LLMResponse` declares, in source order.  A dataclass
constructor call with a keyword outside this list raises `TypeError`. -/
def LLMResponse.fieldNames : List String :=
  ["content", "model", "provider", "tokens_used", "cost", "latency_ms",
   "metadata", "finish_reason", "error"]

/-! ## Error values

Python exceptions raised by this layer: the classified taxonomy of
`exceptions.py` plus the untyped builtin exceptions the providers actually
raise (`ValueError`, `AttributeError`, `TypeError`, bare `Exception`). -/

/-- The classified error taxonomy (`exceptions.py` lines 10-186), one
constructor per exception class, carrying the kind-specific attributes. -/
inductive LLMError
  | base (message : String) (provider : Option String) (statusCode : Option Nat)
  | rateLimit (provider : String) (retry_after : Option Int)
  | quotaExceeded (provider : String)
  | modelNotFound (provider : String) (model : String)
  | authentication (provider : String)
  | providerUnavailable (provider : String)
  | contentFilter (provider : String) (reason : Option String)
  | contextLengthExceeded (provider : String) (inputLength maxLength : Int)
  | invalidRequest (provider : String) (parameter reason : String)
  | timedOut (provider : String) (timeout : Int)
deriving DecidableEq

/-- A raised Python exception: either a member of the classified taxonomy or
one of the untyped builtin exceptions. -/
inductive PyErr
  | llmError (e : LLMError)
  | valueError (msg : String)
  | attributeError (attr : String)
  | typeError (msg : String)
  | genericExc (msg : String)
deriving DecidableEq

/-- Whether a raised exception is an instance of `LLMProviderError`
(the §4.3 taxonomy); builtin `ValueError` / `AttributeError` / `TypeError` /
bare `Exception` are not. -/
def PyErr.isClassified : PyErr → Bool
  | .llmError _ => true
  | _ => false

/-! ## Request validation (`base_provider.py` lines 150-169) -/

/-- `BaseLLMProvider.validate_request`: raises builtin `ValueError` (not an
`InvalidRequestError`) on an empty prompt, a temperature outside `[0, 2]`, or
`max_tokens < 1`; returns `True` otherwise. -/
def validate_request (r : LLMRequest) : Except PyErr Bool :=
  if r.prompt = "" then .error (.valueError "Prompt cannot be empty")
  else if r.temperature < 0 ∨ 2 < r.temperature then
    .error (.valueError "Temperature must be between 0 and 2")
  else if r.max_tokens < 1 then .error (.valueError "Max tokens must be at least 1")
  else .ok true

/-! ## HTTP status classification (`exceptions.py` lines 189-227) -/

/-- The `**kwargs` dictionary of `from_http_status`, restricted to the two
keys the function itself reads (`retry_after`, `model`).  A key is present
exactly when the corresponding field is `some`. -/
structure HttpKwargs where
  retry_after : Option Int := none
  model : Option String := none
deriving DecidableEq

/-- `from_http_status`.  Faithful to the source including the duplicated
keyword bug: in the 429 branch the code extracts `retry_after` from `kwargs`
and then also forwards `**kwargs`, so whenever the `retry_after` key is
present Python raises `TypeError` (multiple values for keyword argument);
the 404 branch has the same shape for the `model` key. -/
def from_http_status (status_code : Nat) (provider : String)
    (response_text : String) (kwargs : HttpKwargs) : Except PyErr LLMError :=
  if status_code = 401 ∨ status_code = 403 then
    .ok (.authentication provider)
  else if status_code = 429 then
    match kwargs.retry_after with
    | some _ =>
        .error (.typeError
          "RateLimitError got multiple values for keyword argument retry_after")
    | none => .ok (.rateLimit provider none)
  else if status_code = 402 ∨ pyIn "quota" (pyLower response_text) = true then
    .ok (.quotaExceeded provider)
  else if status_code = 404 then
    match kwargs.model with
    | some _ =>
        .error (.typeError
          "ModelNotFoundError got multiple values for keyword argument model")
    | none => .ok (.modelNotFound provider "unknown")
  else if status_code = 400 then
    .ok (.invalidRequest provider "unknown" response_text)
  else if status_code = 503 ∨ status_code = 502 then
    .ok (.providerUnavailable provider)
  else
    .ok (.base ("HTTP " ++ toString status_code ++ " error from " ++ provider
      ++ ": " ++ response_text) (some provider) (some status_code))

/-! ## Pricing tables and cost computation -/

/-- A `(price-per-input-token, price-per-output-token)` pair, the value of a
provider's `get_cost_per_token`. -/
structure TokenPrice where
  input : ℚ
  output : ℚ
deriving DecidableEq

/-- `AnthropicProvider.get_cost_per_token` (`anthropic_provider.py`
lines 197-244): dictionary lookup with a Sonnet-pricing default. -/
def anthropic_get_cost_per_token (model : String) : TokenPrice :=
  if model = "claude-3-5-sonnet-20241022" then ⟨3 / 1000000, 15 / 1000000⟩
  else if model = "claude-3-5-haiku-20241022" then ⟨1 / 1000000, 5 / 1000000⟩
  else if model = "claude-3-opus-20240229" then ⟨15 / 1000000, 75 / 1000000⟩
  else if model = "claude-3-sonnet-20240229" then ⟨3 / 1000000, 15 / 1000000⟩
  else if model = "claude-3-haiku-20240307" then ⟨0.25 / 1000000, 1.25 / 1000000⟩
  else ⟨3 / 1000000, 15 / 1000000⟩

/-- `OpenAIProvider.get_cost_per_token` (`openai_provider.py` lines 193-251):
dictionary lookup with a GPT-4-Turbo-pricing default. -/
def openai_get_cost_per_token (model : String) : TokenPrice :=
  if model = "gpt-4-turbo" then ⟨10 / 1000000, 30 / 1000000⟩
  else if model = "gpt-4-turbo-preview" then ⟨10 / 1000000, 30 / 1000000⟩
  else if model = "gpt-4" then ⟨30 / 1000000, 60 / 1000000⟩
  else if model = "gpt-4-0125-preview" then ⟨10 / 1000000, 30 / 1000000⟩
  else if model = "gpt-4o" then ⟨5 / 1000000, 15 / 1000000⟩
  else if model = "gpt-3.5-turbo" then ⟨0.5 / 1000000, 1.5 / 1000000⟩
  else if model = "gpt-3.5-turbo-0125" then ⟨0.5 / 1000000, 1.5 / 1000000⟩
  else ⟨10 / 1000000, 30 / 1000000⟩

/-- `GeminiProvider.get_cost_per_token` (`gemini_provider.py` lines 280-311):
free tier, every branch returns the zero pair. -/
def gemini_get_cost_per_token (model : String) : TokenPrice :=
  if pyIn "flash" (pyLower model) = true then ⟨0, 0⟩
  else if pyIn "pro" (pyLower model) = true then ⟨0, 0⟩
  else ⟨0, 0⟩

/-- `BaseLLMProvider.calculate_cost` (`base_provider.py` lines 134-148),
parameterised by the concrete provider's `get_cost_per_token`. -/
def calculate_cost (lookup : String → TokenPrice)
    (input_tokens output_tokens : Nat) (model : String) : ℚ :=
  let costs := lookup model
  pyRound6 ((input_tokens : ℚ) * costs.input + (output_tokens : ℚ) * costs.output)

/-- The three concrete adapters in the repository. -/
inductive ProviderImpl
  | anthropic
  | openai
  | gemini
deriving DecidableEq

/-- Each adapter's `get_cost_per_token`. -/
def ProviderImpl.costLookup : ProviderImpl → String → TokenPrice
  | .anthropic => anthropic_get_cost_per_token
  | .openai => openai_get_cost_per_token
  | .gemini => gemini_get_cost_per_token

/-! ## Vendor transport outcomes -/

/-- The usage/content payload of a successful (HTTP 200) vendor response,
already extracted from the vendor-specific JSON: the generated text, the
vendor-reported input-token and output-token counts, the optional
vendor-reported total, and the optional finish/stop reason. -/
structure VendorSuccess where
  text : String
  inputTokens : Nat
  outputTokens : Nat
  totalTokenCount : Option Nat
  finishReason : Option String
deriving DecidableEq

/-- Outcome of one outbound HTTP POST: a response with a status code (the
payload is only meaningful when the status is 200) or a transport timeout. -/
inductive VendorOutcome
  | resp (status : Nat) (body : String) (payload : VendorSuccess)
  | timeout
deriving DecidableEq

/-- A transport stub: the outcome of the vendor call at each attempt index. -/
def constTransport (o : VendorOutcome) : Nat → VendorOutcome := fun _ => o

/-! ## Python dynamic-semantics helpers -/

/-- Python attribute access against a dataclass with the given field names:
`AttributeError` when the attribute is not declared. -/
def pyGetattr (fields : List String) (attr : String) : Except PyErr Unit :=
  if fields.contains attr then .ok () else .error (.attributeError attr)

/-- Python dataclass construction with the given keyword-argument names:
`TypeError` when any keyword is not a declared field of `LLMResponse`. -/
def mkLLMResponseKw (kwargNames : List String) (r : LLMResponse) :
    Except PyErr LLMResponse :=
  if kwargNames.all (fun n => LLMResponse.fieldNames.contains n) then .ok r
  else .error (.typeError "LLMResponse got an unexpected keyword argument")

/-- Python `a or b` for an optional string: falls through on `None` and on
the empty string (falsy). -/
def pyOrStr (a : Option String) (b : String) : String :=
  match a with
  | none => b
  | some s => if s = "" then b else s

/-! ## AnthropicProvider.generate (`anthropic_provider.py` lines 63-175) -/

/-- The keyword arguments `AnthropicProvider.generate` passes to the
`LLMResponse` constructor on a 200 response (lines 147-160), in source
order. -/
def anthropicSuccessKwargNames : List String :=
  ["content", "model", "provider", "input_tokens", "output_tokens",
   "tokens_used", "cost", "latency_ms", "metadata"]

/-- `AnthropicProvider.generate`: validates, resolves the model via
`request.model` (an attribute `LLMRequest` does not declare — the dataclass
field is `model_override` — so the access raises `AttributeError` before any
network call), then on HTTP 200 would construct an `LLMResponse` with
`input_tokens` / `output_tokens` keywords the dataclass does not declare, on
any other status raises a bare `Exception`, and on a transport timeout raises
a bare `Exception`.  The code after the attribute access is unreachable; it is
embedded anyway so each exit path of the source is represented. -/
def anthropicGenerate (defaultModel : String) (transport : VendorOutcome)
    (latencyMs : ℚ) (req : LLMRequest) : Except PyErr LLMResponse := do
  let _ ← validate_request req
  let _ ← pyGetattr LLMRequest.fieldNames "model"
  let model := defaultModel
  match transport with
  | .resp status body payload =>
    if status = 200 then
      let input_tokens := payload.inputTokens
      let output_tokens := payload.outputTokens
      let total_tokens := input_tokens + output_tokens
      let cost := calculate_cost anthropic_get_cost_per_token input_tokens output_tokens model
      mkLLMResponseKw anthropicSuccessKwargNames
        { content := payload.text
          model := model
          provider := "anthropic"
          tokens_used := total_tokens
          cost := cost
          latency_ms := latencyMs
          metadata := [("stop_reason", optStrMeta payload.finishReason),
                       ("usage", MetaVal.noneV)] }
    else
      .error (.genericExc ("Claude API error " ++ toString status ++ ": " ++ body))
  | .timeout =>
    .error (.genericExc ("Claude API timeout for model " ++ model))

/-! ## OpenAIProvider.generate (`openai_provider.py` lines 62-171) -/

/-- The keyword arguments `OpenAIProvider.generate` passes to the
`LLMResponse` constructor on a 200 response (lines 143-156). -/
def openaiSuccessKwargNames : List String :=
  ["content", "model", "provider", "input_tokens", "output_tokens",
   "tokens_used", "cost", "latency_ms", "metadata"]

/-- `OpenAIProvider.generate`: identical control flow to the Anthropic
adapter, including the `request.model` attribute access (line 75) and the
undeclared `input_tokens` / `output_tokens` keywords (lines 147-148). -/
def openaiGenerate (defaultModel : String) (transport : VendorOutcome)
    (latencyMs : ℚ) (req : LLMRequest) : Except PyErr LLMResponse := do
  let _ ← validate_request req
  let _ ← pyGetattr LLMRequest.fieldNames "model"
  let model := defaultModel
  match transport with
  | .resp status body payload =>
    if status = 200 then
      let input_tokens := payload.inputTokens
      let output_tokens := payload.outputTokens
      let total_tokens := payload.totalTokenCount.getD (input_tokens + output_tokens)
      let cost := calculate_cost openai_get_cost_per_token input_tokens output_tokens model
      mkLLMResponseKw openaiSuccessKwargNames
        { content := payload.text
          model := model
          provider := "openai"
          tokens_used := total_tokens
          cost := cost
          latency_ms := latencyMs
          metadata := [("finish_reason", optStrMeta payload.finishReason),
                       ("usage", MetaVal.noneV)] }
    else
      .error (.genericExc ("OpenAI API error " ++ toString status ++ ": " ++ body))
  | .timeout =>
    .error (.genericExc ("OpenAI API timeout for model " ++ model))

/-! ## GeminiProvider.generate (`gemini_provider.py` lines 93-256, 313-422) -/

/-- Gemini provider configuration fields read by `generate`
(`gemini_provider.py` lines 45-87).  `genai_client` records whether the GenAI
SDK client was initialised. -/
structure GeminiConfig where
  default_model : String := "gemini-2.5-flash"
  thinking_mode : Bool := true
  timeout : Nat := 60
  max_retries : Nat := 3
  genai_client : Bool := false
deriving DecidableEq

/-- The `error_type` label computed for a non-200 status
(`gemini_provider.py` lines 161-169). -/
def geminiErrorType (status : Nat) : String :=
  if status = 429 then "rate_limit"
  else if status = 401 then "authentication"
  else if status = 400 then "bad_request"
  else if 500 ≤ status then "server_error"
  else "unknown"

/-- The bare `Exception` message raised when the retry loop exhausts its
attempts on a non-200 status (`gemini_provider.py` line 186). -/
def geminiHttpFailMsg (status : Nat) (body : String) : String :=
  "Gemini API " ++ geminiErrorType status ++ " (HTTP " ++ toString status
    ++ "): " ++ pySlice body 500

/-- The bare `Exception` message raised when the retry loop exhausts its
attempts on transport timeouts (`gemini_provider.py` line 240). -/
def geminiTimeoutFailMsg (maxRetries timeoutS : Nat) : String :=
  "Gemini API timeout after " ++ toString maxRetries ++ " attempts ("
    ++ toString timeoutS ++ "s each)"

/-- The `LLMResponse` constructed on a 200 response
(`gemini_provider.py` lines 212-225): all keywords are declared fields; the
input/output token counts go into `metadata` only. -/
def geminiSuccessResponse (model : String) (thinkingMode : Bool)
    (latencyMs : ℚ) (p : VendorSuccess) : LLMResponse :=
  let total := p.totalTokenCount.getD (p.inputTokens + p.outputTokens)
  { content := p.text
    model := model
    provider := "gemini"
    tokens_used := total
    cost := calculate_cost gemini_get_cost_per_token p.inputTokens p.outputTokens model
    latency_ms := latencyMs
    metadata := [("prompt_tokens", .natV p.inputTokens),
                 ("completion_tokens", .natV p.outputTokens),
                 ("thinking_mode", .boolV thinkingMode),
                 ("finish_reason", .strV (p.finishReason.getD "STOP"))] }

deriving instance DecidableEq for Except

/-- Observable result of one `GeminiProvider.generate` call: the returned
value or raised exception (`.ok none` is Python's implicit `None` return when
`range(max_retries)` is empty), the number of REST vendor attempts made, the
backoff sleeps performed (in seconds, in order), and the number of SDK
vendor calls made. -/
structure GenRun where
  result : Except PyErr (Option LLMResponse)
  attempts : Nat
  sleeps : List Nat
  sdkCalls : Nat
deriving DecidableEq

/-- The `for attempt in range(self.max_retries)` loop of
`GeminiProvider.generate` (lines 150-256).  `fuel` is the number of loop
iterations still available (`maxRetries - attempt`); `attempt < max_retries - 1`
is exactly `0 < fuel - 1` at the head of an iteration.  A non-200 status and
a timeout both back off `2 ^ attempt` seconds and retry while attempts
remain, and raise a bare `Exception` on the last attempt. -/
def geminiRunAux (transport : Nat → VendorOutcome) (model : String)
    (thinkingMode : Bool) (latencyMs : ℚ) (timeoutS maxRetries : Nat)
    (attempt attemptsAcc : Nat) (sleepsAcc : List Nat) :
    (fuel : Nat) → GenRun
  | 0 => ⟨.ok none, attemptsAcc, sleepsAcc, 0⟩
  | fuel + 1 =>
    match transport attempt with
    | .resp status body payload =>
      if status ≠ 200 then
        if 0 < fuel then
          geminiRunAux transport model thinkingMode latencyMs timeoutS maxRetries
            (attempt + 1) (attemptsAcc + 1) (sleepsAcc ++ [2 ^ attempt]) fuel
        else
          ⟨.error (.genericExc (geminiHttpFailMsg status body)),
           attemptsAcc + 1, sleepsAcc, 0⟩
      else
        ⟨.ok (some (geminiSuccessResponse model thinkingMode latencyMs payload)),
         attemptsAcc + 1, sleepsAcc, 0⟩
    | .timeout =>
      if 0 < fuel then
        geminiRunAux transport model thinkingMode latencyMs timeoutS maxRetries
          (attempt + 1) (attemptsAcc + 1) (sleepsAcc ++ [2 ^ attempt]) fuel
      else
        ⟨.error (.genericExc (geminiTimeoutFailMsg maxRetries timeoutS)),
         attemptsAcc + 1, sleepsAcc, 0⟩

/-- Outcome of the one SDK call of `_generate_with_sdk`: generated text and
optional usage metadata, or a raised exception (re-raised by the except
block at lines 416-422). -/
def SdkOutcome := Except PyErr (String × Option (Nat × Nat × Option Nat))

/-- `GeminiProvider._generate_with_sdk` (lines 313-422): builds the response
from the SDK result; token counts default to 0 when usage metadata is
absent; cost uses the same `calculate_cost`. -/
def geminiSdkRun (model : String) (thinkingBudget : Int) (latencyMs : ℚ)
    (sdk : SdkOutcome) : GenRun :=
  match sdk with
  | .error e => ⟨.error e, 0, [], 1⟩
  | .ok (text, usage) =>
    let prompt_tokens := (usage.map (fun u => u.1)).getD 0
    let completion_tokens := (usage.map (fun u => u.2.1)).getD 0
    let total_tokens := (usage.bind (fun u => u.2.2)).getD (prompt_tokens + completion_tokens)
    ⟨.ok (some
      { content := text
        model := model
        provider := "gemini"
        tokens_used := total_tokens
        cost := calculate_cost gemini_get_cost_per_token prompt_tokens completion_tokens model
        latency_ms := latencyMs
        metadata := [("prompt_tokens", .natV prompt_tokens),
                     ("completion_tokens", .natV completion_tokens),
                     ("thinking_mode", .boolV true),
                     ("thinking_budget", .intV thinkingBudget),
                     ("sdk_used", .strV "google-genai")] }), 0, [], 1⟩

/-- `GeminiProvider.generate` (the undecorated function body, lines 94-256):
validation first, model resolution via `model_override or default`, the SDK
thinking-mode branch when a thinking budget is present and the SDK client is
initialised, otherwise the REST retry loop.  The `SmartRetry` decorator at
line 93 (code outside this repository) wraps this whole function. -/
def geminiGenerate (cfg : GeminiConfig) (transport : Nat → VendorOutcome)
    (sdk : SdkOutcome) (latencyMs : ℚ) (req : LLMRequest) : GenRun :=
  match validate_request req with
  | .error e => ⟨.error e, 0, [], 0⟩
  | .ok _ =>
    let model := pyOrStr req.model_override cfg.default_model
    match req.thinkingBudget with
    | some tb =>
      if cfg.genai_client then geminiSdkRun model tb latencyMs sdk
      else geminiRunAux transport model cfg.thinking_mode latencyMs
        cfg.timeout cfg.max_retries 0 0 [] cfg.max_retries
    | none =>
      geminiRunAux transport model cfg.thinking_mode latencyMs
        cfg.timeout cfg.max_retries 0 0 [] cfg.max_retries

/-! ## The Gemini admission gate (`gemini_provider.py` lines 42-53, 148)

`_rate_limiter` is declared on the class, not the instance: the first
constructed instance creates the semaphore from its own
`max_concurrent_requests` configuration (default 8) and every later instance
reuses it unchanged. -/

/-- One constructor run's effect on the class attribute
(`if GeminiProvider._rate_limiter is None: ... Semaphore(max_concurrent)`). -/
def geminiGateInitStep (current : Option Nat) (cfgMaxConcurrent : Nat) : Option Nat :=
  match current with
  | none => some cfgMaxConcurrent
  | some c => some c

/-- The class-level semaphore capacity after constructing a sequence of
`GeminiProvider` instances with the given `max_concurrent_requests`
configurations, starting from the class attribute's initial `None`. -/
def geminiGateAfter (cfgs : List Nat) : Option Nat :=
  cfgs.foldl geminiGateInitStep none

/-- State of a counting semaphore: its fixed capacity and the number of
in-flight calls currently holding a slot. -/
structure GateState where
  capacity : Nat
  holders : Nat
deriving DecidableEq

/-- Atomic transitions of the counting semaphore: `async with` entry acquires
a slot only when one is free (otherwise the call suspends, no transition),
and exit — on every exit path — releases a held slot. -/
inductive GateStep : GateState → GateState → Prop
  | acquire (s : GateState) (h : s.holders < s.capacity) :
      GateStep s ⟨s.capacity, s.holders + 1⟩
  | release (s : GateState) (h : 0 < s.holders) :
      GateStep s ⟨s.capacity, s.holders - 1⟩

/-- Gate states reachable from the freshly created semaphore of capacity
`cap` (no holders) by any interleaving of acquires and releases. -/
inductive GateReach (cap : Nat) : GateState → Prop
  | start : GateReach cap ⟨cap, 0⟩
  | step {s t : GateState} : GateReach cap s → GateStep s t → GateReach cap t

/-! ## Rounding lemmas -/

theorem le_roundHalfEven (q : ℚ) : ⌊q⌋ ≤ roundHalfEven q := by
  unfold roundHalfEven
  split_ifs <;> omega

theorem roundHalfEven_le (q : ℚ) : roundHalfEven q ≤ ⌊q⌋ + 1 := by
  unfold roundHalfEven
  split_ifs <;> omega

theorem roundHalfEven_mono {a b : ℚ} (hab : a ≤ b) :
    roundHalfEven a ≤ roundHalfEven b := by
  rcases lt_or_le ⌊a⌋ ⌊b⌋ with h | h
  · have h1 := roundHalfEven_le a
    have h2 := le_roundHalfEven b
    omega
  · have hfe : ⌊a⌋ = ⌊b⌋ := le_antisymm (Int.floor_le_floor hab) h
    unfold roundHalfEven
    rw [hfe]
    split_ifs <;> first | omega | linarith

theorem roundHalfEven_nonneg {q : ℚ} (h : 0 ≤ q) : 0 ≤ roundHalfEven q := by
  have h1 := le_roundHalfEven q
  have h2 : (0 : ℤ) ≤ ⌊q⌋ := Int.floor_nonneg.mpr h
  omega

theorem pyRound6_mono {a b : ℚ} (hab : a ≤ b) : pyRound6 a ≤ pyRound6 b := by
  unfold pyRound6
  have h : roundHalfEven (a * 1000000) ≤ roundHalfEven (b * 1000000) :=
    roundHalfEven_mono (by linarith)
  have h2 : ((roundHalfEven (a * 1000000) : ℤ) : ℚ)
      ≤ ((roundHalfEven (b * 1000000) : ℤ) : ℚ) := by exact_mod_cast h
  linarith

theorem pyRound6_nonneg {a : ℚ} (ha : 0 ≤ a) : 0 ≤ pyRound6 a := by
  unfold pyRound6
  have h : (0 : ℤ) ≤ roundHalfEven (a * 1000000) := by
    have h1 := le_roundHalfEven (a * 1000000)
    have h2 : (0 : ℤ) ≤ ⌊a * 1000000⌋ := Int.floor_nonneg.mpr (by positivity)
    omega
  have h2 : (0 : ℚ) ≤ ((roundHalfEven (a * 1000000) : ℤ) : ℚ) := by exact_mod_cast h
  linarith

theorem pyRound6_zero : pyRound6 0 = 0 := by
  unfold pyRound6 roundHalfEven
  norm_num

/-! ## Pricing lemmas -/

theorem anthropic_price_nonneg (m : String) :
    0 ≤ (anthropic_get_cost_per_token m).input
      ∧ 0 ≤ (anthropic_get_cost_per_token m).output := by
  unfold anthropic_get_cost_per_token
  split_ifs <;> exact ⟨by norm_num, by norm_num⟩

theorem openai_price_nonneg (m : String) :
    0 ≤ (openai_get_cost_per_token m).input
      ∧ 0 ≤ (openai_get_cost_per_token m).output := by
  unfold openai_get_cost_per_token
  split_ifs <;> exact ⟨by norm_num, by norm_num⟩

theorem gemini_price_eq (m : String) : gemini_get_cost_per_token m = ⟨0, 0⟩ := by
  unfold gemini_get_cost_per_token
  split_ifs <;> rfl

theorem costLookup_nonneg (pr : ProviderImpl) (m : String) :
    0 ≤ (pr.costLookup m).input ∧ 0 ≤ (pr.costLookup m).output := by
  cases pr with
  | anthropic => exact anthropic_price_nonneg m
  | openai => exact openai_price_nonneg m
  | gemini => rw [ProviderImpl.costLookup, gemini_price_eq]; exact ⟨le_refl 0, le_refl 0⟩

theorem gemini_cost_zero_aux (i o : Nat) (m : String) :
    calculate_cost gemini_get_cost_per_token i o m = 0 := by
  unfold calculate_cost
  rw [gemini_price_eq]
  show pyRound6 ((i : ℚ) * (0 : ℚ) + (o : ℚ) * (0 : ℚ)) = 0
  rw [show ((i : ℚ) * (0 : ℚ) + (o : ℚ) * (0 : ℚ)) = (0 : ℚ) by ring]
  exact pyRound6_zero

/-! ## Retry-loop lemmas -/

theorem geminiRunAux_const_http (status : Nat) (hs : status ≠ 200) (body : String)
    (p : VendorSuccess) (model : String) (tm : Bool) (lat : ℚ)
    (timeoutS maxRetries : Nat) :
    ∀ fuel attempt attAcc slAcc, 0 < fuel →
      ((geminiRunAux (constTransport (.resp status body p)) model tm lat timeoutS
          maxRetries attempt attAcc slAcc fuel).result
        = .error (.genericExc (geminiHttpFailMsg status body)))
      ∧ ((geminiRunAux (constTransport (.resp status body p)) model tm lat timeoutS
          maxRetries attempt attAcc slAcc fuel).attempts = attAcc + fuel)
      ∧ ((geminiRunAux (constTransport (.resp status body p)) model tm lat timeoutS
          maxRetries attempt attAcc slAcc fuel).sleeps.length
        = slAcc.length + (fuel - 1)) := by
  intro fuel
  induction fuel with
  | zero => intro attempt attAcc slAcc h; exact absurd h (by omega)
  | succ f ih =>
    intro attempt attAcc slAcc _
    simp only [geminiRunAux, constTransport]
    rw [if_pos hs]
    by_cases hf : 0 < f
    · rw [if_pos hf]
      obtain ⟨h1, h2, h3⟩ := ih (attempt + 1) (attAcc + 1) (slAcc ++ [2 ^ attempt]) hf
      refine ⟨h1, ?_, ?_⟩
      · rw [h2]; omega
      · rw [h3]; simp only [List.length_append, List.length_cons, List.length_nil]; omega
    · rw [if_neg hf]
      refine ⟨rfl, ?_, ?_⟩
      · show attAcc + 1 = attAcc + (f + 1); omega
      · show slAcc.length = slAcc.length + (f + 1 - 1); omega

theorem geminiRunAux_const_timeout (model : String) (tm : Bool) (lat : ℚ)
    (timeoutS maxRetries : Nat) :
    ∀ fuel attempt attAcc slAcc, 0 < fuel →
      ((geminiRunAux (constTransport .timeout) model tm lat timeoutS
          maxRetries attempt attAcc slAcc fuel).result
        = .error (.genericExc (geminiTimeoutFailMsg maxRetries timeoutS)))
      ∧ ((geminiRunAux (constTransport .timeout) model tm lat timeoutS
          maxRetries attempt attAcc slAcc fuel).attempts = attAcc + fuel) := by
  intro fuel
  induction fuel with
  | zero => intro attempt attAcc slAcc h; exact absurd h (by omega)
  | succ f ih =>
    intro attempt attAcc slAcc _
    simp only [geminiRunAux, constTransport]
    by_cases hf : 0 < f
    · rw [if_pos hf]
      obtain ⟨h1, h2⟩ := ih (attempt + 1) (attAcc + 1) (slAcc ++ [2 ^ attempt]) hf
      refine ⟨h1, ?_⟩
      rw [h2]; omega
    · rw [if_neg hf]
      refine ⟨rfl, ?_⟩
      show attAcc + 1 = attAcc + (f + 1); omega

theorem geminiRunAux_ok_cost_zero (transport : Nat → VendorOutcome) (model : String)
    (tm : Bool) (lat : ℚ) (timeoutS maxRetries : Nat) :
    ∀ fuel attempt attAcc slAcc resp,
      (geminiRunAux transport model tm lat timeoutS maxRetries
          attempt attAcc slAcc fuel).result = .ok (some resp) →
      resp.cost = 0 := by
  intro fuel
  induction fuel with
  | zero =>
    intro attempt attAcc slAcc resp h
    simp only [geminiRunAux] at h
    exact absurd h (by simp)
  | succ f ih =>
    intro attempt attAcc slAcc resp h
    simp only [geminiRunAux] at h
    cases htr : transport attempt with
    | timeout =>
      rw [htr] at h
      dsimp only at h
      by_cases hf : 0 < f
      · rw [if_pos hf] at h
        exact ih _ _ _ _ h
      · rw [if_neg hf] at h
        exact absurd h (by simp)
    | resp status body payload =>
      rw [htr] at h
      dsimp only at h
      by_cases h200 : status ≠ 200
      · rw [if_pos h200] at h
        by_cases hf : 0 < f
        · rw [if_pos hf] at h
          exact ih _ _ _ _ h
        · rw [if_neg hf] at h
          exact absurd h (by simp)
      · rw [if_neg h200] at h
        simp only [Except.ok.injEq, Option.some.injEq] at h
        rw [← h]
        simp only [geminiSuccessResponse]
        exact gemini_cost_zero_aux payload.inputTokens payload.outputTokens model

/-! ## Admission-gate lemmas -/

theorem gateReach_bound (cap : Nat) (s : GateState) (h : GateReach cap s) :
    s.capacity = cap ∧ s.holders ≤ cap := by
  induction h with
  | start => exact ⟨rfl, Nat.zero_le _⟩
  | step _ hstep ih =>
    cases hstep with
    | acquire hlt =>
      have h1 := ih.1
      have h2 := ih.2
      dsimp only
      exact ⟨h1, by omega⟩
    | release hpos =>
      have h1 := ih.1
      have h2 := ih.2
      dsimp only
      exact ⟨h1, by omega⟩

theorem geminiGateAfter_keeps (c : Nat) (rest : List Nat) :
    rest.foldl geminiGateInitStep (some c) = some c := by
  induction rest with
  | nil => rfl
  | cons x xs ih => simpa [List.foldl, geminiGateInitStep] using ih

/-! ## Claim theorems -/

/-- Claim C1: the claim says every provider returns a fully populated
`Response` on an HTTP 200 vendor call.  On the code this fails: the Anthropic
and OpenAI `generate` read `request.model`, an attribute the `LLMRequest`
dataclass does not declare (the field is `model_override`), so they raise
`AttributeError` before any network call; and even past that, their success
paths pass `input_tokens` / `output_tokens` keywords that the `LLMResponse`
dataclass does not declare, which raises `TypeError`, so no `Response` is
ever produced on a 200. -/
theorem anthropic_openai_generate_200_raises :
    anthropicGenerate "claude-3-5-sonnet-20241022"
        (.resp 200 "ok" ⟨"Hello", 3, 5, none, some "end_turn"⟩) 0
        { prompt := "hi", temperature := 1 }
      = .error (.attributeError "model")
  ∧ openaiGenerate "gpt-4-turbo-preview"
        (.resp 200 "ok" ⟨"Hello", 3, 5, some 8, some "stop"⟩) 0
        { prompt := "hi", temperature := 1 }
      = .error (.attributeError "model")
  ∧ LLMRequest.fieldNames.contains "model" = false
  ∧ LLMRequest.fieldNames.contains "model_override" = true
  ∧ LLMResponse.fieldNames.contains "input_tokens" = false
  ∧ LLMResponse.fieldNames.contains "output_tokens" = false
  ∧ anthropicSuccessKwargNames.contains "input_tokens" = true
  ∧ openaiSuccessKwargNames.contains "output_tokens" = true
  ∧ mkLLMResponseKw anthropicSuccessKwargNames
      { content := "Hello", model := "claude-3-5-sonnet-20241022",
        provider := "anthropic", tokens_used := 8, cost := 0, latency_ms := 0 }
      = .error (.typeError "LLMResponse got an unexpected keyword argument") :=
  ⟨rfl, rfl, rfl, rfl, rfl, rfl, rfl, rfl, rfl⟩

/-- Claim C2 counterexample: a Gemini `generate` that keeps receiving
HTTP 429 propagates a bare `Exception` (generic untyped failure), not a
classified taxonomy error; timeout exhaustion likewise propagates a bare
generic timeout `Exception`. -/
theorem gemini_429_failure_unclassified :
    (geminiGenerate {} (constTransport (.resp 429 "boom" ⟨"", 0, 0, none, none⟩))
        (.ok ("", none)) 0 { prompt := "hi", temperature := 1 }).result
      = .error (.genericExc "Gemini API rate_limit (HTTP 429): boom")
  ∧ PyErr.isClassified (.genericExc "Gemini API rate_limit (HTTP 429): boom") = false
  ∧ (geminiGenerate {} (constTransport .timeout)
        (.ok ("", none)) 0 { prompt := "hi", temperature := 1 }).result
      = .error (.genericExc "Gemini API timeout after 3 attempts (60s each)")
  ∧ PyErr.isClassified
      (.genericExc "Gemini API timeout after 3 attempts (60s each)") = false :=
  ⟨by decide, rfl, by decide, rfl⟩

/-- Claim C2 amended: whenever the Gemini `generate` REST path fails (a
persistent non-200 status, or persistent transport timeouts), the error
propagated after exhausting the inner retry loop is a bare generic
`Exception` carrying the status/timeout text — never a §4.3 taxonomy error
(`from_http_status` is never invoked by any `generate`).  The Anthropic and
OpenAI adapters fail with an untyped `AttributeError` before reaching the
vendor at all. -/
theorem gemini_generate_failure_generic_exception
    (req : LLMRequest) (hv : validate_request req = .ok true)
    (hnb : req.thinkingBudget = none)
    (cfg : GeminiConfig) (hmr : 0 < cfg.max_retries)
    (status : Nat) (hs : status ≠ 200) (body : String) (p : VendorSuccess)
    (sdk : SdkOutcome) (lat : ℚ) :
    ((geminiGenerate cfg (constTransport (.resp status body p)) sdk lat req).result
        = .error (.genericExc (geminiHttpFailMsg status body)))
  ∧ PyErr.isClassified (.genericExc (geminiHttpFailMsg status body)) = false
  ∧ ((geminiGenerate cfg (constTransport .timeout) sdk lat req).result
        = .error (.genericExc (geminiTimeoutFailMsg cfg.max_retries cfg.timeout)))
  ∧ PyErr.isClassified
      (.genericExc (geminiTimeoutFailMsg cfg.max_retries cfg.timeout)) = false := by
  unfold geminiGenerate
  rw [hv, hnb]
  exact ⟨(geminiRunAux_const_http status hs body p _ _ lat _ _
            cfg.max_retries 0 0 [] hmr).1, rfl,
         (geminiRunAux_const_timeout _ _ lat _ _
            cfg.max_retries 0 0 [] hmr).1, rfl⟩

theorem gemini_generate_failure_generic_exception_witness :
    ((geminiGenerate {} (constTransport (.resp 500 "oops" ⟨"", 0, 0, none, none⟩))
        (.ok ("", none)) 0 { prompt := "hi", temperature := 1 }).result
      = .error (.genericExc (geminiHttpFailMsg 500 "oops"))) :=
  (gemini_generate_failure_generic_exception { prompt := "hi", temperature := 1 }
    (by decide) rfl {} (by decide) 500 (by decide) "oops"
    ⟨"", 0, 0, none, none⟩ (.ok ("", none)) 0).1

/-- Claim C3 counterexample: with the default `max_retries = 3`, a Gemini
`generate` receiving HTTP 401 on every attempt makes 3 vendor attempts (not
exactly one) with backoff sleeps of 1 and 2 seconds in between, before
raising a generic authentication-labelled `Exception`. -/
theorem gemini_401_retried_not_once :
    (geminiGenerate {} (constTransport (.resp 401 "unauthorized" ⟨"", 0, 0, none, none⟩))
        (.ok ("", none)) 0 { prompt := "hi", temperature := 1 }).attempts = 3
  ∧ (geminiGenerate {} (constTransport (.resp 401 "unauthorized" ⟨"", 0, 0, none, none⟩))
        (.ok ("", none)) 0 { prompt := "hi", temperature := 1 }).attempts ≠ 1
  ∧ (geminiGenerate {} (constTransport (.resp 401 "unauthorized" ⟨"", 0, 0, none, none⟩))
        (.ok ("", none)) 0 { prompt := "hi", temperature := 1 }).sleeps = [1, 2]
  ∧ (geminiGenerate {} (constTransport (.resp 401 "unauthorized" ⟨"", 0, 0, none, none⟩))
        (.ok ("", none)) 0 { prompt := "hi", temperature := 1 }).result
      = .error (.genericExc "Gemini API authentication (HTTP 401): unauthorized") :=
  ⟨by decide, by decide, by decide, by decide⟩

/-- Claim C3 amended: HTTP 401 is labelled `authentication` only for logging;
the Gemini retry loop retries it like any other non-200 status: for every
configured `max_retries ≥ 1` it makes exactly `max_retries` vendor attempts
with `max_retries - 1` backoff sleeps in between (no error kind is exempt
from retry), and then raises a generic `Exception`. -/
theorem gemini_retry_ignores_error_kind
    (req : LLMRequest) (hv : validate_request req = .ok true)
    (hnb : req.thinkingBudget = none)
    (cfg : GeminiConfig) (hmr : 0 < cfg.max_retries)
    (body : String) (p : VendorSuccess) (sdk : SdkOutcome) (lat : ℚ) :
    ((geminiGenerate cfg (constTransport (.resp 401 body p)) sdk lat req).attempts
        = cfg.max_retries)
  ∧ ((geminiGenerate cfg (constTransport (.resp 401 body p)) sdk lat req).sleeps.length
        = cfg.max_retries - 1)
  ∧ ((geminiGenerate cfg (constTransport (.resp 401 body p)) sdk lat req).result
        = .error (.genericExc (geminiHttpFailMsg 401 body))) := by
  unfold geminiGenerate
  rw [hv, hnb]
  obtain ⟨h1, h2, h3⟩ := geminiRunAux_const_http 401 (by omega) body p
    (pyOrStr req.model_override cfg.default_model) cfg.thinking_mode lat
    cfg.timeout cfg.max_retries cfg.max_retries 0 0 [] hmr
  exact ⟨by rw [h2]; omega, by rw [h3]; simp, h1⟩

theorem gemini_retry_ignores_error_kind_witness :
    ((geminiGenerate {} (constTransport (.resp 401 "no" ⟨"", 0, 0, none, none⟩))
        (.ok ("", none)) 0 { prompt := "hi", temperature := 1 }).attempts
      = ({} : GeminiConfig).max_retries) :=
  (gemini_retry_ignores_error_kind { prompt := "hi", temperature := 1 }
    (by decide) rfl {} (by decide) "no" ⟨"", 0, 0, none, none⟩ (.ok ("", none)) 0).1

/-- Claim C4: the claim says classifying HTTP 429 with a retry-after of 5
yields a `RateLimited` error with `retry_after = 5`.  On the code this is a
bug: `from_http_status` extracts `retry_after` from `kwargs` and also
forwards `**kwargs`, so the `RateLimitError` constructor receives the
keyword twice and Python raises `TypeError`; a `RateLimitError` with a
non-`None` `retry_after` can never be produced by `from_http_status` (the
no-kwargs call yields `retry_after = None`). -/
theorem from_http_status_429_retry_after_type_error :
    from_http_status 429 "openai" "" { retry_after := some 5 }
      = .error (.typeError
          "RateLimitError got multiple values for keyword argument retry_after")
  ∧ from_http_status 429 "openai" "" {} = .ok (.rateLimit "openai" none) :=
  ⟨rfl, rfl⟩

/-- Claim C5 counterexample: HTTP 404 does not yield `ModelNotFound` for
every response body — a body containing the quota marker is classified as
`QuotaExceeded`, because the quota-body test precedes the 404 branch. -/
theorem from_http_status_404_quota_body :
    from_http_status 404 "openai" "Quota exceeded for project" {}
      = .ok (.quotaExceeded "openai")
  ∧ from_http_status 404 "openai" "Quota exceeded for project" {}
      ≠ .ok (.modelNotFound "openai" "unknown") :=
  ⟨by decide, by decide⟩

/-- Claim C5 amended: the classification table holds with one precedence
caveat — the quota-body check (`status = 402` or body containing `quota`,
case-insensitively) precedes the 404 / 400 / 502 / 503 branches, so those
four statuses map to their table kinds only when the body lacks a quota
marker, and map to `QuotaExceeded` otherwise.  401 and 403 yield
`AuthenticationFailed`; 429 yields `RateLimited` (with `retry_after = None`
when no keyword is forwarded); any unhandled status yields the base error
carrying the status code.  The function is pure: it is a Lean function of
its arguments, so determinism holds by construction. -/
theorem from_http_status_classification (p body qbody : String) (status : Nat)
    (hq : pyIn "quota" (pyLower body) = false)
    (hq2 : pyIn "quota" (pyLower qbody) = true)
    (h401 : status ≠ 401) (h403 : status ≠ 403) (h429 : status ≠ 429)
    (h402 : status ≠ 402) (h404 : status ≠ 404) (h400 : status ≠ 400)
    (h502 : status ≠ 502) (h503 : status ≠ 503) :
    from_http_status 401 p body {} = .ok (.authentication p)
  ∧ from_http_status 403 p body {} = .ok (.authentication p)
  ∧ from_http_status 429 p body {} = .ok (.rateLimit p none)
  ∧ from_http_status 402 p body {} = .ok (.quotaExceeded p)
  ∧ from_http_status 404 p body {} = .ok (.modelNotFound p "unknown")
  ∧ from_http_status 400 p body {} = .ok (.invalidRequest p "unknown" body)
  ∧ from_http_status 502 p body {} = .ok (.providerUnavailable p)
  ∧ from_http_status 503 p body {} = .ok (.providerUnavailable p)
  ∧ from_http_status 404 p qbody {} = .ok (.quotaExceeded p)
  ∧ from_http_status 400 p qbody {} = .ok (.quotaExceeded p)
  ∧ from_http_status 502 p qbody {} = .ok (.quotaExceeded p)
  ∧ from_http_status 503 p qbody {} = .ok (.quotaExceeded p)
  ∧ from_http_status status p body {}
      = .ok (.base ("HTTP " ++ toString status ++ " error from " ++ p ++ ": " ++ body)
          (some p) (some status)) := by
  refine ⟨?_, ?_, ?_, ?_, ?_, ?_, ?_, ?_, ?_, ?_, ?_, ?_, ?_⟩ <;>
    simp [from_http_status, hq, hq2, h401, h403, h429, h402, h404, h400, h502, h503]

theorem from_http_status_classification_witness :
    from_http_status 418 "openai" "teapot" {}
      = .ok (.base ("HTTP " ++ toString 418 ++ " error from " ++ "openai"
          ++ ": " ++ "teapot") (some "openai") (some 418)) :=
  (from_http_status_classification "openai" "teapot" "quota remaining 0" 418
    (by decide) (by decide) (by decide) (by decide) (by decide) (by decide)
    (by decide) (by decide) (by decide) (by decide)).2.2.2.2.2.2.2.2.2.2.2.2

/-- Claim C6 counterexample: validation of an empty-prompt request fails
with a builtin `ValueError`, which is not an instance of the
`LLMProviderError` taxonomy (so not an `InvalidRequestError`). -/
theorem validate_request_raises_value_error :
    validate_request { prompt := "" } = .error (.valueError "Prompt cannot be empty")
  ∧ PyErr.isClassified (.valueError "Prompt cannot be empty") = false :=
  ⟨rfl, rfl⟩

/-- Claim C6 amended: for every request with an empty prompt, a temperature
outside `[0, 2]`, or `max_tokens < 1`, the shared `validate_request` fails
with a builtin `ValueError` (not the taxonomy's `InvalidRequestError`)
before any network activity — the Gemini `generate` makes zero REST attempts
and zero SDK calls, and the Anthropic and OpenAI `generate` raise the same
`ValueError` whatever the transport would have returned; a request with a
non-empty prompt, `0 ≤ temperature ≤ 2` and `max_tokens ≥ 1` passes
validation. -/
theorem validate_request_gating (r : LLMRequest) :
    ((r.prompt = "" ∨ r.temperature < 0 ∨ 2 < r.temperature ∨ r.max_tokens < 1) →
      (∃ msg, validate_request r = .error (.valueError msg))
      ∧ (∀ cfg transport sdk lat,
           (geminiGenerate cfg transport sdk lat r).attempts = 0
           ∧ (geminiGenerate cfg transport sdk lat r).sdkCalls = 0)
      ∧ (∀ dm tr lat, ∃ msg, anthropicGenerate dm tr lat r = .error (.valueError msg))
      ∧ (∀ dm tr lat, ∃ msg, openaiGenerate dm tr lat r = .error (.valueError msg)))
  ∧ (r.prompt ≠ "" → 0 ≤ r.temperature → r.temperature ≤ 2 → 1 ≤ r.max_tokens →
      validate_request r = .ok true) := by
  constructor
  · intro hbad
    have hmsg : ∃ msg, validate_request r = .error (.valueError msg) := by
      unfold validate_request
      split_ifs with h1 h2 h3
      · exact ⟨_, rfl⟩
      · exact ⟨_, rfl⟩
      · exact ⟨_, rfl⟩
      · rcases hbad with h | h | h | h
        · exact absurd h h1
        · exact absurd (Or.inl h) h2
        · exact absurd (Or.inr h) h2
        · exact absurd h h3
    obtain ⟨msg, hm⟩ := hmsg
    refine ⟨⟨msg, hm⟩, ?_, ?_, ?_⟩
    · intro cfg transport sdk lat
      unfold geminiGenerate
      rw [hm]
      exact ⟨rfl, rfl⟩
    · intro dm tr lat
      refine ⟨msg, ?_⟩
      unfold anthropicGenerate
      rw [hm]
      rfl
    · intro dm tr lat
      refine ⟨msg, ?_⟩
      unfold openaiGenerate
      rw [hm]
      rfl
  · intro h1 h2 h3 h4
    unfold validate_request
    have hT : ¬(r.temperature < 0 ∨ 2 < r.temperature) := by
      push_neg
      exact ⟨h2, h3⟩
    have hM : ¬(r.max_tokens < 1) := by omega
    rw [if_neg h1, if_neg hT, if_neg hM]

theorem validate_request_gating_witness :
    (geminiGenerate {} (constTransport .timeout) (.ok ("", none)) 0
        { prompt := "" }).attempts = 0
  ∧ validate_request { prompt := "hi", temperature := 1 } = .ok true :=
  ⟨(((validate_request_gating { prompt := "" }).1 (Or.inl rfl)).2.1
      {} (constTransport .timeout) (.ok ("", none)) 0).1,
   (validate_request_gating { prompt := "hi", temperature := 1 }).2
     (by decide) (by decide) (by decide) (by decide)⟩

/-- Claim C7: for each of the three providers, `calculate_cost` equals
`input_tokens * input_price + output_price * output_tokens` where the price
pair is whatever the provider's `get_cost_per_token` returns for the model
(including unknown models, which hit the default tier), rounded to 6
fractional digits. -/
theorem calculate_cost_formula (pr : ProviderImpl) (i o : Nat) (m : String) :
    calculate_cost pr.costLookup i o m
      = pyRound6 ((i : ℚ) * (pr.costLookup m).input
          + (pr.costLookup m).output * (o : ℚ)) := by
  unfold calculate_cost
  ring_nf

/-- Claim C8: for all token counts and every model (known or not — unknown
models resolve to the default pricing tier), `calculate_cost` of each
provider is non-negative, deterministic (a pure Lean function: equal inputs
give equal outputs), and monotonically non-decreasing in each token count
separately. -/
theorem calculate_cost_nonneg_mono (pr : ProviderImpl) (m : String)
    (i o i2 o2 : Nat) :
    0 ≤ calculate_cost pr.costLookup i o m
  ∧ calculate_cost pr.costLookup i o m = calculate_cost pr.costLookup i o m
  ∧ (i ≤ i2 → calculate_cost pr.costLookup i o m ≤ calculate_cost pr.costLookup i2 o m)
  ∧ (o ≤ o2 → calculate_cost pr.costLookup i o m ≤ calculate_cost pr.costLookup i o2 m) := by
  obtain ⟨hin, hout⟩ := costLookup_nonneg pr m
  refine ⟨?_, rfl, ?_, ?_⟩
  · unfold calculate_cost
    apply pyRound6_nonneg
    have hi : (0 : ℚ) ≤ (i : ℚ) := by positivity
    have ho : (0 : ℚ) ≤ (o : ℚ) := by positivity
    exact add_nonneg (mul_nonneg hi hin) (mul_nonneg ho hout)
  · intro h
    unfold calculate_cost
    apply pyRound6_mono
    have hc : (i : ℚ) ≤ (i2 : ℚ) := by exact_mod_cast h
    have := mul_le_mul_of_nonneg_right hc hin
    linarith
  · intro h
    unfold calculate_cost
    apply pyRound6_mono
    have hc : (o : ℚ) ≤ (o2 : ℚ) := by exact_mod_cast h
    have := mul_le_mul_of_nonneg_right hc hout
    linarith

theorem calculate_cost_nonneg_mono_witness :
    0 ≤ calculate_cost ProviderImpl.anthropic.costLookup 1 2 "claude-3-opus-20240229"
  ∧ calculate_cost ProviderImpl.anthropic.costLookup 1 2 "claude-3-opus-20240229"
      ≤ calculate_cost ProviderImpl.anthropic.costLookup 3 2 "claude-3-opus-20240229"
  ∧ calculate_cost ProviderImpl.anthropic.costLookup 1 2 "claude-3-opus-20240229"
      ≤ calculate_cost ProviderImpl.anthropic.costLookup 1 5 "claude-3-opus-20240229" :=
  ⟨(calculate_cost_nonneg_mono .anthropic "claude-3-opus-20240229" 1 2 3 5).1,
   (calculate_cost_nonneg_mono .anthropic "claude-3-opus-20240229" 1 2 3 5).2.2.1
     (by omega),
   (calculate_cost_nonneg_mono .anthropic "claude-3-opus-20240229" 1 2 3 5).2.2.2
     (by omega)⟩

/-- Claim C9 counterexample: the admission gate is not scoped to the adapter
instance.  Constructing a first `GeminiProvider` with
`max_concurrent_requests = 8` and a second with `max_concurrent_requests = 2`
leaves the single class-level semaphore at capacity 8, and a state with 3
slots held (more than the second adapter's configured 2) is reachable, so
`max_concurrent_requests + 1 = 3` simultaneous calls against the second
adapter can all be in flight at once. -/
theorem gemini_gate_shared_capacity_exceeded :
    geminiGateAfter [8, 2] = some 8
  ∧ geminiGateAfter [8, 2] ≠ some 2
  ∧ GateReach 8 ⟨8, 3⟩
  ∧ 2 < 3 := by
  refine ⟨rfl, by decide, ?_, by omega⟩
  have h1 : GateReach 8 ⟨8, 1⟩ :=
    GateReach.step GateReach.start (GateStep.acquire ⟨8, 0⟩ (by decide))
  have h2 : GateReach 8 ⟨8, 2⟩ :=
    GateReach.step h1 (GateStep.acquire ⟨8, 1⟩ (by decide))
  exact GateReach.step h2 (GateStep.acquire ⟨8, 2⟩ (by decide))

/-- Claim C9 amended: the admission gate is a class-level semaphore shared by
all `GeminiProvider` instances and sized by the first-constructed instance's
`max_concurrent_requests` (later configurations are ignored), and every gate
state reachable by acquires and releases holds at most that first capacity
in slots — so the claimed per-instance bound holds only for instances whose
configuration matches the first one. -/
theorem gemini_gate_class_scope_bound (first : Nat) (rest : List Nat)
    (cap : Nat) (s : GateState) (hreach : GateReach cap s) :
    geminiGateAfter (first :: rest) = some first ∧ s.holders ≤ cap := by
  constructor
  · show List.foldl geminiGateInitStep (geminiGateInitStep none first) rest = some first
    exact geminiGateAfter_keeps first rest
  · exact (gateReach_bound cap s hreach).2

theorem gemini_gate_class_scope_bound_witness :
    geminiGateAfter [8, 2] = some 8 ∧ (GateState.mk 8 0).holders ≤ 8 :=
  gemini_gate_class_scope_bound 8 [2] 8 ⟨8, 0⟩ GateReach.start

/-- Claim C10: the Gemini pricing lookup returns the zero pair for every
model identifier, `calculate_cost` is therefore 0 for all token counts, and
every `LLMResponse` returned by the Gemini `generate` (REST loop or SDK
thinking path) carries `cost = 0`. -/
theorem gemini_generate_zero_cost :
    (∀ m, gemini_get_cost_per_token m = ⟨0, 0⟩)
  ∧ (∀ i o m, calculate_cost gemini_get_cost_per_token i o m = 0)
  ∧ (∀ cfg transport sdk lat req resp,
      (geminiGenerate cfg transport sdk lat req).result = .ok (some resp) →
      resp.cost = 0) := by
  refine ⟨gemini_price_eq, gemini_cost_zero_aux, ?_⟩
  intro cfg transport sdk lat req resp h
  unfold geminiGenerate at h
  cases hv : validate_request req with
  | error e =>
    rw [hv] at h
    exact absurd h (by simp)
  | ok b =>
    rw [hv] at h
    dsimp only at h
    cases hnb : req.thinkingBudget with
    | some tb =>
      rw [hnb] at h
      dsimp only at h
      by_cases hcl : cfg.genai_client
      · rw [if_pos hcl] at h
        unfold geminiSdkRun at h
        cases sdk with
        | error e => exact absurd h (by simp)
        | ok v =>
          obtain ⟨text, usage⟩ := v
          simp only [Except.ok.injEq, Option.some.injEq] at h
          rw [← h]
          exact gemini_cost_zero_aux _ _ _
      · rw [if_neg hcl] at h
        exact geminiRunAux_ok_cost_zero _ _ _ _ _ _ _ _ _ _ _ h
    | none =>
      rw [hnb] at h
      dsimp only at h
      exact geminiRunAux_ok_cost_zero _ _ _ _ _ _ _ _ _ _ _ h

theorem gemini_generate_zero_cost_witness :
    (geminiSuccessResponse "gemini-2.5-flash" true 0 ⟨"hello", 3, 5, none, none⟩).cost
      = 0 :=
  gemini_generate_zero_cost.2.2 {}
    (constTransport (.resp 200 "" ⟨"hello", 3, 5, none, none⟩))
    (.ok ("", none)) 0 { prompt := "hi", temperature := 1 }
    (geminiSuccessResponse "gemini-2.5-flash" true 0 ⟨"hello", 3, 5, none, none⟩) rfl
